import Mathlib

/-!
Verification of the guest booking reference & verification scheme:
PNR generation (`generatePNR`), guest-identity resolution
(`getOrCreateGuestUser`), contact-based verification
(`getGuestBookingByPNR`), guest booking creation (`createGuestBooking`),
and the guest Stripe payment-intent handler
(`handleCreateGuestStripePaymentIntent`).

The persistence layer (Supabase/PostgREST) is modelled as an explicit
store of user and booking records; a `.single()` query returns a row
exactly when precisely one row matches (`dbSingle`), and otherwise an
error carrying the matched row count.  External effects (the users/
bookings inserts, the Stripe SDK) are modelled by explicit oracles
passed as parameters.  Randomness (`Math.random()` scaled to the
36-character alphabet) is a stream of draws in `Fin 36`.
-/

/-- One record of the `users` table, with the columns this mechanism
reads or writes. -/
structure UserRec where
  id : Nat
  email : String
  first_name : String
  last_name : String
  role : String
deriving DecidableEq, Repr

/-- One record of the `bookings` table, with the columns this mechanism
reads or writes. -/
structure Booking where
  id : Nat
  from_airport_id : Nat
  to_airport_id : Nat
  departure_date : String
  return_date : Option String
  trip_type : String
  total_amount : Nat
  contact_email : String
  contact_phone : Option String
  terms_accepted : Bool
  pnr : String
  status : String
  currency : String
  user_id : Nat
deriving DecidableEq, Repr

/-- The external store: users and bookings tables, plus the id
sequences the database uses to assign fresh primary keys. -/
structure Store where
  users : List UserRec
  bookings : List Booking
  nextUserId : Nat
  nextBookingId : Nat
deriving DecidableEq, Repr

/-- Semantics of a PostgREST `.single()` call: a row is returned
exactly when precisely one row matches the filters; zero or multiple
matching rows produce an error (`none`). -/
def dbSingle {α : Type} : List α → Option α
  | [x] => some x
  | _ => none

theorem dbSingle_eq_some {α : Type} {l : List α} {x : α} :
    dbSingle l = some x ↔ l = [x] := by
  constructor
  · intro h
    match l with
    | [] => simp [dbSingle] at h
    | [y] => simp [dbSingle] at h; simp [h]
    | y :: z :: t => simp [dbSingle] at h
  · intro h; subst h; rfl

theorem dbSingle_nil {α : Type} : dbSingle ([] : List α) = none := rfl

/-- The 36-character alphabet of `generatePNR`:
`"ABCDEFGHIJKLMNOPQRSTUVWXYZ0123456789"`. -/
def pnrChars : List Char := "ABCDEFGHIJKLMNOPQRSTUVWXYZ0123456789".toList

theorem pnrChars_length : pnrChars.length = 36 := by decide

/-- The character `chars.charAt(k)` for a draw `k` of
`Math.floor(Math.random() * chars.length)` (always in `0..35`). -/
def pnrCharAt (i : Fin 36) : Char :=
  pnrChars.get (Fin.cast pnrChars_length.symm i)

/-- Embedding of `generatePNR`: starting from the empty string, six
iterations each append `chars.charAt(Math.floor(Math.random() * 36))`,
the i-th using the i-th draw of the random source. -/
def generatePNR (rand : Nat → Fin 36) : String :=
  (List.range 6).foldl (fun acc i => acc.push (pnrCharAt (rand i))) ""

theorem generatePNR_data (rand : Nat → Fin 36) :
    (generatePNR rand).toList =
      [pnrCharAt (rand 0), pnrCharAt (rand 1), pnrCharAt (rand 2),
       pnrCharAt (rand 3), pnrCharAt (rand 4), pnrCharAt (rand 5)] := rfl

theorem pnrCharAt_mem (i : Fin 36) : pnrCharAt i ∈ pnrChars :=
  List.get_mem _ _ _

/-- C10: every locator produced by `generatePNR` has length exactly 6,
every character belongs to the 36-character alphabet {A-Z, 0-9}, and the
i-th character depends only on the i-th draw of the random source (the
draws are used independently, one per position); the generator is a
total function of the random source alone (no other input, no failure
mode). -/
theorem C10_generatePNR_shape (rand : Nat → Fin 36) :
    (generatePNR rand).length = 6 ∧
    (∀ c ∈ (generatePNR rand).toList, c ∈ pnrChars) ∧
    (generatePNR rand).toList =
      [pnrCharAt (rand 0), pnrCharAt (rand 1), pnrCharAt (rand 2),
       pnrCharAt (rand 3), pnrCharAt (rand 4), pnrCharAt (rand 5)] := by
  refine ⟨rfl, ?_, generatePNR_data rand⟩
  intro c hc
  rw [generatePNR_data] at hc
  simp only [List.mem_cons, List.not_mem_nil, or_false] at hc
  rcases hc with h | h | h | h | h | h <;> rw [h] <;> exact pnrCharAt_mem _

/-- C10 witness: the theorem applied at the constant-zero random
source, whose locator is "AAAAAA"; the membership hypothesis is
discharged at the concrete character 'A'. -/
theorem C10_generatePNR_shape_witness :
    (generatePNR (fun _ => (0 : Fin 36))).length = 6 ∧ 'A' ∈ pnrChars := by
  refine ⟨(C10_generatePNR_shape (fun _ => (0 : Fin 36))).1, ?_⟩
  exact (C10_generatePNR_shape (fun _ => (0 : Fin 36))).2.1 'A' (by decide)

/-- The fixed sentinel contact address of the Guest Owner account:
`"guest@onboardticket.system"`. -/
def guestEmail : String := "guest@onboardticket.system"

/-- The rows of the lookup `supabase.from("users").select("id")
.eq("email", guestEmail)`: the user records whose email equals the
sentinel address. -/
def guestRecords (s : Store) : List UserRec :=
  s.users.filter (fun u => u.email == guestEmail)

/-- The record inserted by `getOrCreateGuestUser` when no Guest Owner
is found: sentinel email, name "Guest User", role "guest"; the database
assigns the fresh id. -/
def newGuestUser (n : Nat) : UserRec :=
  ⟨n, guestEmail, "Guest", "User", "guest"⟩

/-- Embedding of `getOrCreateGuestUser`: look up the user whose email is
the sentinel address with `.single()`; if found, return its id and leave
the store unchanged; otherwise insert the guest record (the oracle
`insertOk` says whether the insert succeeds).  A failed insert raises
`Failed to create guest user` (result `none`); the store is
unchanged in that case. -/
def getOrCreateGuestUser (s : Store) (insertOk : Bool) : Option Nat × Store :=
  match dbSingle (guestRecords s) with
  | some u => (some u.id, s)
  | none =>
    if insertOk then
      (some s.nextUserId,
       Store.mk (s.users ++ [newGuestUser s.nextUserId]) s.bookings
         (s.nextUserId + 1) s.nextBookingId)
    else (none, s)

/-- The conjunction of the three `.eq` filters of
`getGuestBookingByPNR`: pnr, contact_email and user_id must all equal
the supplied values. -/
def bookingMatches (pnr email : String) (gid : Nat) (b : Booking) : Bool :=
  b.pnr == pnr && b.contact_email == email && b.user_id == gid

/-- Outcome of `getGuestBookingByPNR` (a supabase `{data, error}`
result, or the exception propagated from `getOrCreateGuestUser`):
`ok` is a returned row; `err n` is the PostgREST `.single()` error when
`n ≠ 1` rows matched the three filters; `identityError` is the
`Failed to create guest user` exception from the identity resolver. -/
inductive GuestLookupResult where
  | ok : Booking → GuestLookupResult
  | err : Nat → GuestLookupResult
  | identityError : GuestLookupResult
deriving DecidableEq, Repr

/-- True exactly when a lookup outcome returned a booking row. -/
def GuestLookupResult.isOk : GuestLookupResult → Bool
  | .ok _ => true
  | _ => false

/-- Embedding of `getGuestBookingByPNR`: resolve the Guest Owner id
(`getOrCreateGuestUser`), then select the booking matching
`.eq("pnr", pnr).eq("contact_email", email).eq("user_id", guestUserId)`
with `.single()`. -/
def getGuestBookingByPNR (pnr email : String) (s : Store) (insertOk : Bool) :
    GuestLookupResult × Store :=
  match getOrCreateGuestUser s insertOk with
  | (none, s1) => (.identityError, s1)
  | (some gid, s1) =>
    match dbSingle (s1.bookings.filter (bookingMatches pnr email gid)) with
    | some b => (.ok b, s1)
    | none => (.err (s1.bookings.filter (bookingMatches pnr email gid)).length, s1)

/-- Input payload of `createGuestBooking`. -/
structure GuestBookingData where
  from_airport_id : Nat
  to_airport_id : Nat
  departure_date : String
  return_date : Option String
  trip_type : String
  total_amount : Nat
  contact_email : String
  contact_phone : Option String
  terms_accepted : Bool
deriving DecidableEq, Repr

/-- Embedding of `createGuestBooking`: generate a PNR, resolve the
Guest Owner id, then insert a booking with that pnr, status "pending",
currency "USD" and `user_id` the resolved guest id (`bookingOk` is the
oracle for the bookings insert; `none` covers both the propagated
identity exception and a failed insert). -/
def createGuestBooking (d : GuestBookingData) (s : Store)
    (rand : Nat → Fin 36) (userOk bookingOk : Bool) : Option Booking × Store :=
  let pnr := generatePNR rand
  match getOrCreateGuestUser s userOk with
  | (none, s1) => (none, s1)
  | (some gid, s1) =>
    if bookingOk then
      (some (Booking.mk s1.nextBookingId d.from_airport_id d.to_airport_id
         d.departure_date d.return_date d.trip_type d.total_amount
         d.contact_email d.contact_phone d.terms_accepted pnr "pending" "USD" gid),
       Store.mk s1.users
         (s1.bookings ++ [Booking.mk s1.nextBookingId d.from_airport_id
            d.to_airport_id d.departure_date d.return_date d.trip_type
            d.total_amount d.contact_email d.contact_phone d.terms_accepted
            pnr "pending" "USD" gid])
         s1.nextUserId (s1.nextBookingId + 1))
    else (none, s1)

/-- Request body of the guest Stripe payment-intent route
(`bookingId`, `amount`, `pnr`, `contactEmail`; absent fields are
`none`). -/
structure GuestPaymentRequest where
  bookingId : Option Nat
  amount : Option Nat
  pnr : Option String
  contactEmail : Option String
deriving DecidableEq, Repr

/-- Result object of `StripeService.createPaymentIntent`. -/
structure StripePaymentIntent where
  id : String
  client_secret : String
deriving DecidableEq, Repr

/-- An HTTP response of the guest payment-intent handler: status code
and the JSON fields the handler writes. -/
structure Resp where
  status : Nat
  success : Bool
  message : Option String
  clientSecret : Option String
  paymentIntentId : Option String
  demoMode : Option Bool
deriving DecidableEq, Repr

/-- Response `400 Missing required fields: bookingId and amount`. -/
def respMissingFields : Resp :=
  ⟨400, false, some "Missing required fields: bookingId and amount",
   none, none, none⟩

/-- Response `400 Missing required fields for guest booking: pnr and
contactEmail`. -/
def respMissingGuestFields : Resp :=
  ⟨400, false,
   some "Missing required fields for guest booking: pnr and contactEmail",
   none, none, none⟩

/-- Response `404 Booking not found`. -/
def respBookingNotFound : Resp :=
  ⟨404, false, some "Booking not found", none, none, none⟩

/-- Response `403 Booking verification failed`. -/
def respVerificationFailed : Resp :=
  ⟨403, false, some "Booking verification failed", none, none, none⟩

/-- Response `400 Booking is not eligible for payment`. -/
def respNotEligible : Resp :=
  ⟨400, false, some "Booking is not eligible for payment", none, none, none⟩

/-- The demo-mode success response: synthetic client secret
`pi_demo_<t1>_secret` and payment-intent id `pi_demo_<t2>` (the two
`Date.now()` calls), `demoMode: true`. -/
def respDemo (msg : String) (t1 t2 : Nat) : Resp :=
  ⟨200, true, some msg, some ("pi_demo_" ++ toString t1 ++ "_secret"),
   some ("pi_demo_" ++ toString t2), some true⟩

/-- Embedding of `handleCreateGuestStripePaymentIntent`: reject missing
`bookingId`/`amount` (JS-falsy: absent or zero amount) and missing
`pnr`/`contactEmail` (absent or empty); fetch the booking by id with
`getBookingById` (`.single()`); 404 when not found; 403 when
`booking.pnr !== pnr || booking.contact_email !== contactEmail`;
400 when `booking.status !== "pending"`; then a Stripe payment intent
when Stripe is configured and the call succeeds, and the demo-mode
response when Stripe is unconfigured (`stripeConfigured = false`) or
the Stripe call throws (`stripeCall = none`). -/
def handleCreateGuestStripePaymentIntent (req : GuestPaymentRequest)
    (s : Store) (stripeConfigured : Bool)
    (stripeCall : Option StripePaymentIntent) (t1 t2 : Nat) : Resp :=
  match req.bookingId, req.amount with
  | none, _ => respMissingFields
  | _, none => respMissingFields
  | some bid, some amt =>
    if amt == 0 then respMissingFields
    else
      match req.pnr, req.contactEmail with
      | none, _ => respMissingGuestFields
      | _, none => respMissingGuestFields
      | some p, some e =>
        if p == "" || e == "" then respMissingGuestFields
        else
          match dbSingle (s.bookings.filter (fun b => b.id == bid)) with
          | none => respBookingNotFound
          | some booking =>
            if booking.pnr != p || booking.contact_email != e then
              respVerificationFailed
            else if booking.status != "pending" then respNotEligible
            else if !stripeConfigured then
              respDemo "Stripe demo mode - payment will be simulated" t1 t2
            else
              match stripeCall with
              | some pi =>
                ⟨200, true, none, some pi.client_secret, some pi.id, some false⟩
              | none =>
                respDemo "Payment will be simulated in demo mode" t1 t2

theorem getOrCreateGuestUser_cases (s : Store) (ok : Bool) :
    (∃ u, dbSingle (guestRecords s) = some u ∧
       getOrCreateGuestUser s ok = (some u.id, s)) ∨
    (dbSingle (guestRecords s) = none ∧ ok = true ∧
       getOrCreateGuestUser s ok =
         (some s.nextUserId,
          Store.mk (s.users ++ [newGuestUser s.nextUserId]) s.bookings
            (s.nextUserId + 1) s.nextBookingId)) ∨
    (dbSingle (guestRecords s) = none ∧ ok = false ∧
       getOrCreateGuestUser s ok = (none, s)) := by
  rcases hd : dbSingle (guestRecords s) with _ | u
  · cases ok
    · exact Or.inr (Or.inr ⟨rfl, rfl, by simp [getOrCreateGuestUser, hd]⟩)
    · exact Or.inr (Or.inl ⟨rfl, rfl, by simp [getOrCreateGuestUser, hd]⟩)
  · exact Or.inl ⟨u, rfl, by simp [getOrCreateGuestUser, hd]⟩

theorem getOrCreateGuestUser_found {s : Store} {u : UserRec} (ok : Bool)
    (h : dbSingle (guestRecords s) = some u) :
    getOrCreateGuestUser s ok = (some u.id, s) := by
  simp [getOrCreateGuestUser, h]

theorem getOrCreateGuestUser_bookings (s : Store) (ok : Bool) :
    ((getOrCreateGuestUser s ok).2).bookings = s.bookings := by
  rcases getOrCreateGuestUser_cases s ok with ⟨u, _, heq⟩ | ⟨_, _, heq⟩ | ⟨_, _, heq⟩ <;>
    rw [heq]

theorem getOrCreateGuestUser_users (s : Store) (ok : Bool) :
    ((getOrCreateGuestUser s ok).2).users = s.users ∨
      (dbSingle (guestRecords s) = none ∧
       ((getOrCreateGuestUser s ok).2).users =
         s.users ++ [newGuestUser s.nextUserId]) := by
  rcases getOrCreateGuestUser_cases s ok with ⟨u, _, heq⟩ | ⟨hd, _, heq⟩ | ⟨hd, _, heq⟩
  · rw [heq]; exact Or.inl rfl
  · rw [heq]; exact Or.inr ⟨hd, rfl⟩
  · rw [heq]; exact Or.inl rfl

theorem getGuestBookingByPNR_store (p e : String) (s : Store) (ok : Bool) :
    (getGuestBookingByPNR p e s ok).2 = (getOrCreateGuestUser s ok).2 := by
  unfold getGuestBookingByPNR
  rcases hres : getOrCreateGuestUser s ok with ⟨r, s1⟩
  rcases r with _ | gid
  · rfl
  · simp only []
    rcases dbSingle (s1.bookings.filter (bookingMatches p e gid)) with _ | b <;> rfl

theorem dbSingle_none_short {α : Type} {l : List α}
    (h : dbSingle l = none) (hl : l.length ≤ 1) : l = [] := by
  match l with
  | [] => rfl
  | [x] => simp [dbSingle] at h
  | x :: y :: t => simp only [List.length_cons] at hl; omega

/-- The concrete Guest Owner record used in concrete scenarios. -/
def guestUser1 : UserRec := ⟨1, guestEmail, "Guest", "User", "guest"⟩

/-- A concrete authenticated (non-guest) user. -/
def realUser2 : UserRec := ⟨2, "real.owner@example.com", "Real", "Owner", "user"⟩

/-- A booking owned by the authenticated user (`user_id = 2`, not the
Guest Owner id 1), with locator "AB12XY" and contact
"a@example.com". -/
def authBooking10 : Booking :=
  ⟨10, 3, 4, "2024-02-15", none, "oneway", 500, "a@example.com", none,
   true, "AB12XY", "pending", "USD", 2⟩

/-- A store holding the Guest Owner, an authenticated user and that
user's booking. -/
def storeAuth : Store := ⟨[guestUser1, realUser2], [authBooking10], 3, 11⟩

/-- A guest payment-intent request presenting the authenticated
booking's id, locator and contact address. -/
def reqAuth : GuestPaymentRequest :=
  ⟨some 10, some 500, some "AB12XY", some "a@example.com"⟩

/-- C1: for a stored booking whose `user_id` (2) is not the Guest Owner
identifier (1), the `getGuestBookingByPNR` path indeed refuses access
even though locator and contact match; but the guest payment-intent
handler, which checks only `pnr` and `contact_email` and never the
owner, accepts the very same booking and proceeds to payment (here the
demo-mode success response), contradicting the claim that guest
verification never succeeds for a non-guest-owned booking on every
guest access path. -/
theorem C1_payment_handler_ignores_owner :
    (getOrCreateGuestUser storeAuth true).1 = some 1 ∧
    authBooking10.user_id = 2 ∧
    authBooking10 ∈ storeAuth.bookings ∧
    (getGuestBookingByPNR "AB12XY" "a@example.com" storeAuth true).1 =
      GuestLookupResult.err 0 ∧
    handleCreateGuestStripePaymentIntent reqAuth storeAuth false none 5 6 =
      respDemo "Stripe demo mode - payment will be simulated" 5 6 ∧
    (handleCreateGuestStripePaymentIntent reqAuth storeAuth false none 5 6).success
      = true := by
  decide

/-- Two distinct guest bookings that share locator "AB12XY" and contact
"a@example.com" (locators are not unique by construction). -/
def dupBookingA : Booking :=
  ⟨20, 3, 4, "2024-03-01", none, "oneway", 400, "a@example.com", none,
   true, "AB12XY", "pending", "USD", 1⟩

/-- Second booking with the same locator, contact and owner. -/
def dupBookingB : Booking :=
  ⟨21, 3, 4, "2024-03-02", none, "oneway", 450, "a@example.com", none,
   true, "AB12XY", "pending", "USD", 1⟩

/-- A store holding the Guest Owner and the two duplicate guest
bookings. -/
def storeDup : Store := ⟨[guestUser1], [dupBookingA, dupBookingB], 3, 22⟩

/-- C2 counterexample: in `storeDup` the record `dupBookingA` matches
all three predicates (pnr, contact_email, guest owner id 1), yet
`getGuestBookingByPNR` returns no booking: the `.single()` call errors
because 2 rows matched.  So "returns a booking record exactly when a
stored record matches all three predicates" is false as stated. -/
theorem C2_counterexample :
    (getOrCreateGuestUser storeDup true).1 = some 1 ∧
    dupBookingA ∈ storeDup.bookings ∧
    dupBookingA.pnr = "AB12XY" ∧
    dupBookingA.contact_email = "a@example.com" ∧
    dupBookingA.user_id = 1 ∧
    (getGuestBookingByPNR "AB12XY" "a@example.com" storeDup true).1 =
      GuestLookupResult.err 2 := by
  decide

/-- A store holding the Guest Owner and exactly one guest booking with
locator "AB12XY" and contact "a@example.com". -/
def verifiedBooking : Booking :=
  ⟨30, 3, 4, "2024-02-15", none, "oneway", 500, "a@example.com", none,
   true, "AB12XY", "pending", "USD", 1⟩

/-- Store with a single matching guest booking. -/
def storeOne : Store := ⟨[guestUser1], [verifiedBooking], 3, 31⟩

/-- C2 (amended): when the Guest Owner resolves to `gid`,
`getGuestBookingByPNR` returns a booking `b` exactly when `b` is the
single stored record matching all three predicates (pnr = locator,
contact_email = contact, user_id = gid); with zero or several matching
records the call fails.  On the claim's concrete data: ("AB12XY",
"a@example.com") returns the booking, while ("AB12XY",
"wrong@example.com") and ("ZZ99ZZ", "a@example.com") fail. -/
theorem C2_verification_iff (p e : String) (s : Store) (ok : Bool)
    (gid : Nat) (s1 : Store)
    (hres : getOrCreateGuestUser s ok = (some gid, s1)) (b : Booking) :
    ((getGuestBookingByPNR p e s ok).1 = GuestLookupResult.ok b ↔
      s.bookings.filter (bookingMatches p e gid) = [b]) ∧
    (getGuestBookingByPNR "AB12XY" "a@example.com" storeOne true).1 =
      GuestLookupResult.ok verifiedBooking ∧
    ((getGuestBookingByPNR "AB12XY" "wrong@example.com" storeOne true).1).isOk
      = false ∧
    ((getGuestBookingByPNR "ZZ99ZZ" "a@example.com" storeOne true).1).isOk
      = false := by
  refine ⟨?_, by decide, by decide, by decide⟩
  have hbk : s1.bookings = s.bookings := by
    have h2 : s1 = (getOrCreateGuestUser s ok).2 := by rw [hres]
    rw [h2]; exact getOrCreateGuestUser_bookings s ok
  unfold getGuestBookingByPNR
  rw [hres]
  simp only [hbk]
  rcases hd : dbSingle (s.bookings.filter (bookingMatches p e gid)) with _ | b2
  · simp only []
    constructor
    · intro h; exact absurd h (by simp)
    · intro h; rw [h] at hd; simp [dbSingle] at hd
  · simp only []
    constructor
    · intro h
      have hb2 : b2 = b := by
        have := GuestLookupResult.ok.inj h
        exact this
      rw [← hb2]
      exact dbSingle_eq_some.mp hd
    · intro h
      rw [h] at hd
      have : b2 = b := by simpa [dbSingle] using hd.symm
      rw [this]

/-- C2 witness: the amended iff applied at the concrete matching store,
the hypothesis on the resolver discharged by computation, yielding the
successful lookup of the claim's positive example. -/
theorem C2_verification_iff_witness :
    (getGuestBookingByPNR "AB12XY" "a@example.com" storeOne true).1 =
      GuestLookupResult.ok verifiedBooking :=
  (C2_verification_iff "AB12XY" "a@example.com" storeOne true 1 storeOne
    (by decide) verifiedBooking).2.1

/-- A guest payment-intent request that reaches the verification check
and fails it: all required fields are present (JS-truthy), the booking
is found by id, and the supplied pnr or contact email does not match
the stored booking. -/
def failsVerificationCheck (req : GuestPaymentRequest) (s : Store)
    (b : Booking) : Prop :=
  ∃ bid a p e, req = ⟨some bid, some a, some p, some e⟩ ∧
    a ≠ 0 ∧ p ≠ "" ∧ e ≠ "" ∧
    dbSingle (s.bookings.filter (fun bb => bb.id == bid)) = some b ∧
    (b.pnr ≠ p ∨ b.contact_email ≠ e)

/-- A guest payment-intent request that reaches and passes the
verification check: all required fields present, booking found by id,
and both the supplied pnr and contact email equal the stored values. -/
def passesVerification (req : GuestPaymentRequest) (s : Store)
    (b : Booking) : Prop :=
  ∃ bid a p e, req = ⟨some bid, some a, some p, some e⟩ ∧
    a ≠ 0 ∧ p ≠ "" ∧ e ≠ "" ∧
    dbSingle (s.bookings.filter (fun bb => bb.id == bid)) = some b ∧
    b.pnr = p ∧ b.contact_email = e

theorem handler_verification_failure_resp (req : GuestPaymentRequest)
    (s : Store) (b : Booking) (c : Bool) (sc : Option StripePaymentIntent)
    (t1 t2 : Nat) (h : failsVerificationCheck req s b) :
    handleCreateGuestStripePaymentIntent req s c sc t1 t2 =
      respVerificationFailed := by
  obtain ⟨bid, a, p, e, hreq, ha, hp, he, hdb, hmis⟩ := h
  subst hreq
  have ha' : (a == 0) = false := by simpa using ha
  have hp' : (p == "") = false := by simpa using hp
  have he' : (e == "") = false := by simpa using he
  have hmis' : (b.pnr != p || b.contact_email != e) = true := by
    rcases hmis with h | h <;> simp [bne_iff_ne, h]
  simp [handleCreateGuestStripePaymentIntent, ha', hp', he', hdb, hmis']

theorem getGuestBookingByPNR_err_zero (p e : String) (s : Store) (ok : Bool)
    (gid : Nat) (s1 : Store)
    (hres : getOrCreateGuestUser s ok = (some gid, s1))
    (hq : s.bookings.filter (bookingMatches p e gid) = []) :
    (getGuestBookingByPNR p e s ok).1 = GuestLookupResult.err 0 := by
  have hbk : s1.bookings = s.bookings := by
    have h2 : s1 = (getOrCreateGuestUser s ok).2 := by rw [hres]
    rw [h2]; exact getOrCreateGuestUser_bookings s ok
  unfold getGuestBookingByPNR
  rw [hres]
  simp [hbk, hq, dbSingle]

/-- C3: two guest access requests that fail verification are
externally indistinguishable.  On the payment-intent handler, any two
requests that reach the verification check and fail it (wrong locator
or wrong contact) receive the exact same response (403 "Booking
verification failed", no other field revealing the cause).  On the
`getGuestBookingByPNR` path, any two calls whose three-way filter
matches no record - whether the locator is wrong, the contact is wrong,
or the matching booking is not owned by the Guest Owner - return the
same error value (the zero-row `.single()` error). -/
theorem C3_failures_indistinguishable
    (r1 : GuestPaymentRequest) (u1 : Store) (b1 : Booking)
    (r2 : GuestPaymentRequest) (u2 : Store) (b2 : Booking)
    (c1 c2 : Bool) (sc1 sc2 : Option StripePaymentIntent) (t1 t2 t3 t4 : Nat)
    (h1 : failsVerificationCheck r1 u1 b1)
    (h2 : failsVerificationCheck r2 u2 b2)
    (p1 e1 : String) (s1 : Store) (ok1 : Bool) (g1 : Nat) (w1 : Store)
    (p2 e2 : String) (s2 : Store) (ok2 : Bool) (g2 : Nat) (w2 : Store)
    (hg1 : getOrCreateGuestUser s1 ok1 = (some g1, w1))
    (hq1 : s1.bookings.filter (bookingMatches p1 e1 g1) = [])
    (hg2 : getOrCreateGuestUser s2 ok2 = (some g2, w2))
    (hq2 : s2.bookings.filter (bookingMatches p2 e2 g2) = []) :
    handleCreateGuestStripePaymentIntent r1 u1 c1 sc1 t1 t2 =
      handleCreateGuestStripePaymentIntent r2 u2 c2 sc2 t3 t4 ∧
    (getGuestBookingByPNR p1 e1 s1 ok1).1 =
      (getGuestBookingByPNR p2 e2 s2 ok2).1 := by
  constructor
  · rw [handler_verification_failure_resp r1 u1 b1 c1 sc1 t1 t2 h1,
        handler_verification_failure_resp r2 u2 b2 c2 sc2 t3 t4 h2]
  · rw [getGuestBookingByPNR_err_zero p1 e1 s1 ok1 g1 w1 hg1 hq1,
        getGuestBookingByPNR_err_zero p2 e2 s2 ok2 g2 w2 hg2 hq2]

/-- C3 witness: a wrong-contact failure and a wrong-locator failure,
under different Stripe configurations and timestamps, receive the exact
same handler response; and the two corresponding lookup failures return
the same error value. -/
theorem C3_failures_indistinguishable_witness :
    handleCreateGuestStripePaymentIntent
        ⟨some 10, some 500, some "AB12XY", some "wrong@example.com"⟩
        storeAuth true (some ⟨"pi_1", "cs_1"⟩) 1 2 =
      handleCreateGuestStripePaymentIntent
        ⟨some 10, some 500, some "ZZ99ZZ", some "a@example.com"⟩
        storeAuth false none 3 4 ∧
    (getGuestBookingByPNR "ZZ99ZZ" "a@example.com" storeOne true).1 =
      (getGuestBookingByPNR "AB12XY" "wrong@example.com" storeOne true).1 :=
  C3_failures_indistinguishable
    ⟨some 10, some 500, some "AB12XY", some "wrong@example.com"⟩
    storeAuth authBooking10
    ⟨some 10, some 500, some "ZZ99ZZ", some "a@example.com"⟩
    storeAuth authBooking10
    true false (some ⟨"pi_1", "cs_1"⟩) none 1 2 3 4
    ⟨10, 500, "AB12XY", "wrong@example.com", rfl, by decide, by decide,
      by decide, by decide, Or.inr (by decide)⟩
    ⟨10, 500, "ZZ99ZZ", "a@example.com", rfl, by decide, by decide,
      by decide, by decide, Or.inl (by decide)⟩
    "ZZ99ZZ" "a@example.com" storeOne true 1 storeOne
    "AB12XY" "wrong@example.com" storeOne true 1 storeOne
    (by decide) (by decide) (by decide) (by decide)

/-- C4: for every request whose booking passes verification and is in
status "pending", when Stripe is unconfigured or the Stripe call
throws, the handler still answers success: HTTP 200, success true,
demoMode true, and the synthetic client secret
`pi_demo_<timestamp>_secret`. -/
theorem C4_demo_mode_fallback (req : GuestPaymentRequest) (s : Store)
    (b : Booking) (c : Bool) (sc : Option StripePaymentIntent) (t1 t2 : Nat)
    (h : passesVerification req s b) (hst : b.status = "pending")
    (hfail : c = false ∨ sc = none) :
    (handleCreateGuestStripePaymentIntent req s c sc t1 t2).status = 200 ∧
    (handleCreateGuestStripePaymentIntent req s c sc t1 t2).success = true ∧
    (handleCreateGuestStripePaymentIntent req s c sc t1 t2).demoMode =
      some true ∧
    (handleCreateGuestStripePaymentIntent req s c sc t1 t2).clientSecret =
      some ("pi_demo_" ++ toString t1 ++ "_secret") := by
  obtain ⟨bid, a, p, e, hreq, ha, hp, he, hdb, hpnr, hem⟩ := h
  subst hreq
  have ha' : (a == 0) = false := by simpa using ha
  have hp' : (p == "") = false := by simpa using hp
  have he' : (e == "") = false := by simpa using he
  have hpnr' : (b.pnr != p) = false := by simp [hpnr]
  have hem' : (b.contact_email != e) = false := by simp [hem]
  have hst' : (b.status != "pending") = false := by simp [hst]
  rcases hfail with hc | hsc
  · subst hc
    simp [handleCreateGuestStripePaymentIntent, ha', hp', he', hdb,
      hpnr', hem', hst', respDemo]
  · subst hsc
    cases c <;>
      simp [handleCreateGuestStripePaymentIntent, ha', hp', he', hdb,
        hpnr', hem', hst', respDemo]

/-- C4 witness: the theorem applied to the pending booking of
`storeAuth` with Stripe unconfigured. -/
theorem C4_demo_mode_fallback_witness :
    (handleCreateGuestStripePaymentIntent reqAuth storeAuth false none 7 8).status
      = 200 ∧
    (handleCreateGuestStripePaymentIntent reqAuth storeAuth false none 7 8).success
      = true ∧
    (handleCreateGuestStripePaymentIntent reqAuth storeAuth false none 7 8).demoMode
      = some true ∧
    (handleCreateGuestStripePaymentIntent reqAuth storeAuth false none 7 8).clientSecret
      = some ("pi_demo_" ++ toString 7 ++ "_secret") :=
  C4_demo_mode_fallback reqAuth storeAuth authBooking10 false none 7 8
    ⟨10, 500, "AB12XY", "a@example.com", rfl, by decide, by decide,
      by decide, by decide, rfl, rfl⟩
    rfl (Or.inl rfl)

/-- The store with no users and no bookings. -/
def emptyStore : Store := ⟨[], [], 0, 0⟩

/-- C5 counterexample: on a store with no Guest Owner record, a failed
verification call does mutate stored records - `getOrCreateGuestUser`,
invoked by `getGuestBookingByPNR` before the booking filter, inserts
the Guest Owner user record even though verification fails, so the user
table after the call differs from the one before. -/
theorem C5_counterexample :
    ((getGuestBookingByPNR "AB12XY" "a@example.com" emptyStore true).1).isOk
      = false ∧
    ((getGuestBookingByPNR "AB12XY" "a@example.com" emptyStore true).2).users
      ≠ emptyStore.users := by
  decide

/-- C5 (amended): a failed guest verification never mutates any booking
record, and never mutates any user record except possibly inserting the
single Guest Owner record (sentinel email, fresh id) when the sentinel
lookup found none. -/
theorem C5_failed_verification_frame (p e : String) (s : Store) (ok : Bool)
    (_hfail : ((getGuestBookingByPNR p e s ok).1).isOk = false) :
    ((getGuestBookingByPNR p e s ok).2).bookings = s.bookings ∧
    (((getGuestBookingByPNR p e s ok).2).users = s.users ∨
      (dbSingle (guestRecords s) = none ∧
       ((getGuestBookingByPNR p e s ok).2).users =
         s.users ++ [newGuestUser s.nextUserId])) := by
  rw [getGuestBookingByPNR_store]
  exact ⟨getOrCreateGuestUser_bookings s ok, getOrCreateGuestUser_users s ok⟩

/-- C5 witness: the amended frame property applied to the empty store,
where the failed verification has inserted exactly the Guest Owner
record and nothing else. -/
theorem C5_failed_verification_frame_witness :
    ((getGuestBookingByPNR "ZZ99ZZ" "x@example.com" emptyStore true).2).bookings
      = emptyStore.bookings ∧
    (((getGuestBookingByPNR "ZZ99ZZ" "x@example.com" emptyStore true).2).users
        = emptyStore.users ∨
      (dbSingle (guestRecords emptyStore) = none ∧
       ((getGuestBookingByPNR "ZZ99ZZ" "x@example.com" emptyStore true).2).users
         = emptyStore.users ++ [newGuestUser emptyStore.nextUserId])) :=
  C5_failed_verification_frame "ZZ99ZZ" "x@example.com" emptyStore true
    (by decide)

/-- C6: a verified guest booking whose status is "confirmed" or
"cancelled" is refused by the payment-intent flow with the 400
"Booking is not eligible for payment" response; and the verification
gate (`getGuestBookingByPNR`) never changes any booking record, in
particular no status transition. -/
theorem C6_nonpending_payment_rejected (req : GuestPaymentRequest)
    (s : Store) (b : Booking) (c : Bool) (sc : Option StripePaymentIntent)
    (t1 t2 : Nat) (h : passesVerification req s b)
    (hst : b.status = "confirmed" ∨ b.status = "cancelled")
    (p e : String) (sB : Store) (okB : Bool) :
    handleCreateGuestStripePaymentIntent req s c sc t1 t2 = respNotEligible ∧
    ((getGuestBookingByPNR p e sB okB).2).bookings = sB.bookings := by
  obtain ⟨bid, a, pp, ee, hreq, ha, hp, he, hdb, hpnr, hem⟩ := h
  subst hreq
  have ha' : (a == 0) = false := by simpa using ha
  have hp' : (pp == "") = false := by simpa using hp
  have he' : (ee == "") = false := by simpa using he
  have hpnr' : (b.pnr != pp) = false := by simp [hpnr]
  have hem' : (b.contact_email != ee) = false := by simp [hem]
  have hst' : (b.status != "pending") = true := by
    rcases hst with h | h <;> rw [h] <;> decide
  constructor
  · simp [handleCreateGuestStripePaymentIntent, ha', hp', he', hdb,
      hpnr', hem', hst']
  · rw [getGuestBookingByPNR_store]
    exact getOrCreateGuestUser_bookings sB okB

/-- A confirmed guest booking. -/
def confirmedBooking : Booking :=
  ⟨40, 3, 4, "2024-02-15", none, "oneway", 500, "a@example.com", none,
   true, "CD34WX", "confirmed", "USD", 1⟩

/-- Store with the Guest Owner and one confirmed guest booking. -/
def storeConfirmed : Store := ⟨[guestUser1], [confirmedBooking], 3, 41⟩

/-- C6 witness: the theorem applied to a confirmed booking whose
request passes verification; the handler refuses and the gate leaves
the bookings untouched. -/
theorem C6_nonpending_payment_rejected_witness :
    handleCreateGuestStripePaymentIntent
        ⟨some 40, some 500, some "CD34WX", some "a@example.com"⟩
        storeConfirmed true none 1 2 = respNotEligible ∧
    ((getGuestBookingByPNR "CD34WX" "a@example.com" storeConfirmed true).2).bookings
      = storeConfirmed.bookings :=
  C6_nonpending_payment_rejected
    ⟨some 40, some 500, some "CD34WX", some "a@example.com"⟩
    storeConfirmed confirmedBooking true none 1 2
    ⟨40, 500, "CD34WX", "a@example.com", rfl, by decide, by decide,
      by decide, by decide, rfl, rfl⟩
    (Or.inl rfl) "CD34WX" "a@example.com" storeConfirmed true

/-- C7: with at most one Guest Owner record stored, the resolver
signals failure (`none`, the thrown `Failed to create guest user`)
exactly when the sentinel lookup found nothing, the creation attempt
failed, and a re-read of the sentinel lookup on the resulting store
still finds nothing; moreover whenever it fails, no Guest Owner record
exists in the store at that point, and no owner identifier is returned
(the result carries no id). -/
theorem C7_identity_failure_exact (s : Store) (ok : Bool)
    (hinv : (guestRecords s).length ≤ 1) :
    ((getOrCreateGuestUser s ok).1 = none ↔
      (dbSingle (guestRecords s) = none ∧ ok = false ∧
       dbSingle (guestRecords ((getOrCreateGuestUser s ok).2)) = none)) ∧
    ((getOrCreateGuestUser s ok).1 = none →
      guestRecords ((getOrCreateGuestUser s ok).2) = []) := by
  rcases getOrCreateGuestUser_cases s ok with ⟨u, hd, heq⟩ | ⟨hd, hok, heq⟩ |
    ⟨hd, hok, heq⟩
  · rw [heq]; simp [hd]
  · subst hok; rw [heq]; simp [hd]
  · subst hok
    rw [heq]
    exact ⟨by simp [hd], fun _ => dbSingle_none_short hd hinv⟩

/-- C7 witness: the theorem applied to the empty store with a failing
insert; failure is signalled, the re-read finds nothing, and no Guest
Owner record exists. -/
theorem C7_identity_failure_exact_witness :
    ((getOrCreateGuestUser emptyStore false).1 = none ↔
      (dbSingle (guestRecords emptyStore) = none ∧ false = false ∧
       dbSingle (guestRecords ((getOrCreateGuestUser emptyStore false).2)) =
         none)) ∧
    ((getOrCreateGuestUser emptyStore false).1 = none →
      guestRecords ((getOrCreateGuestUser emptyStore false).2) = []) :=
  C7_identity_failure_exact emptyStore false (by decide)

/-- C8: starting from a store with at most one Guest Owner record, if a
first (sequential) resolver call returns identifier `i1`, then a second
call - whatever its insert oracle, since it only reads - returns the
same `i1`; after it, at most one Guest Owner record (sentinel-email
user) exists; and any guest booking successfully created from the same
store (via `createGuestBooking`, which resolves the owner with the same
oracle) carries exactly that owner identifier in `user_id`. -/
theorem C8_resolver_stable (s : Store) (ok1 ok2 : Bool) (i1 : Nat)
    (hinv : (guestRecords s).length ≤ 1)
    (h1 : (getOrCreateGuestUser s ok1).1 = some i1) :
    (getOrCreateGuestUser ((getOrCreateGuestUser s ok1).2) ok2).1 = some i1 ∧
    (guestRecords
      ((getOrCreateGuestUser ((getOrCreateGuestUser s ok1).2) ok2).2)).length
      ≤ 1 ∧
    (∀ d rand bOk b, (createGuestBooking d s rand ok1 bOk).1 = some b →
      b.user_id = i1) := by
  rcases getOrCreateGuestUser_cases s ok1 with ⟨u, hd, heq⟩ | ⟨hd, hok, heq⟩ |
    ⟨_, _, heq⟩
  · rw [heq] at h1
    have hi : u.id = i1 := by simpa using h1
    subst hi
    rw [heq]
    refine ⟨by simp [getOrCreateGuestUser, hd], ?_, ?_⟩
    · simpa [getOrCreateGuestUser, hd] using hinv
    · intro d rand bOk b hcb
      cases bOk
      · simp [createGuestBooking, heq] at hcb
      · simp [createGuestBooking, heq] at hcb
        subst hcb
        simp
  · subst hok
    rw [heq] at h1
    have hi : s.nextUserId = i1 := by simpa using h1
    subst hi
    have hnil : guestRecords s = [] := dbSingle_none_short hd hinv
    rw [heq]
    have hgr : guestRecords
        (Store.mk (s.users ++ [newGuestUser s.nextUserId]) s.bookings
          (s.nextUserId + 1) s.nextBookingId) =
        [newGuestUser s.nextUserId] := by
      have happ : guestRecords
          (Store.mk (s.users ++ [newGuestUser s.nextUserId]) s.bookings
            (s.nextUserId + 1) s.nextBookingId) =
          guestRecords s ++ [newGuestUser s.nextUserId] := by
        simp [guestRecords, List.filter_append, newGuestUser]
      rw [happ, hnil]; rfl
    have hfound : dbSingle (guestRecords
        (Store.mk (s.users ++ [newGuestUser s.nextUserId]) s.bookings
          (s.nextUserId + 1) s.nextBookingId)) =
        some (newGuestUser s.nextUserId) := by
      rw [hgr]; rfl
    refine ⟨?_, ?_, ?_⟩
    · rw [getOrCreateGuestUser_found ok2 hfound]
      rfl
    · rw [getOrCreateGuestUser_found ok2 hfound]
      simp [hgr]
    · intro d rand bOk b hcb
      cases bOk
      · simp [createGuestBooking, heq] at hcb
      · simp [createGuestBooking, heq] at hcb
        subst hcb
        simp
  · rw [heq] at h1
    simp at h1

/-- Concrete guest booking payload used in witnesses. -/
def sampleData : GuestBookingData :=
  ⟨3, 4, "2024-02-15", none, "oneway", 500, "a@example.com", none, true⟩

/-- The booking `createGuestBooking` inserts for `sampleData` on the
empty store with the all-zero random source: fresh id 0, locator
"AAAAAA", status "pending", owner id 0 (the freshly created Guest
Owner). -/
def sampleGuestBooking : Booking :=
  ⟨0, 3, 4, "2024-02-15", none, "oneway", 500, "a@example.com", none,
   true, "AAAAAA", "pending", "USD", 0⟩

/-- C8 witness: on the empty store the first resolver call creates the
Guest Owner with id 0, a second call returns the same id 0, and the
concretely created guest booking carries `user_id = 0`. -/
theorem C8_resolver_stable_witness :
    (getOrCreateGuestUser ((getOrCreateGuestUser emptyStore true).2) true).1 =
      some 0 ∧
    sampleGuestBooking.user_id = 0 := by
  refine ⟨(C8_resolver_stable emptyStore true true 0 (by decide)
    (by decide)).1, ?_⟩
  exact (C8_resolver_stable emptyStore true true 0 (by decide)
    (by decide)).2.2 sampleData (fun _ => (0 : Fin 36)) true
    sampleGuestBooking (by decide)

/-- C9: the resolver's steps in order: when the sentinel-address lookup
finds a user record `u`, the resolver returns `u.id` and leaves the
store unchanged; when the lookup finds nothing and the insert succeeds,
it inserts a new record whose contact address is the sentinel and whose
role marker is "guest", and returns that new record's identifier. -/
theorem C9_resolver_steps (s : Store) (ok : Bool) :
    (∀ u, dbSingle (guestRecords s) = some u →
        getOrCreateGuestUser s ok = (some u.id, s)) ∧
    (dbSingle (guestRecords s) = none → ok = true →
        getOrCreateGuestUser s ok =
          (some s.nextUserId,
           Store.mk (s.users ++ [newGuestUser s.nextUserId]) s.bookings
             (s.nextUserId + 1) s.nextBookingId) ∧
        (newGuestUser s.nextUserId).email = guestEmail ∧
        (newGuestUser s.nextUserId).role = "guest") := by
  constructor
  · intro u hu
    simp [getOrCreateGuestUser, hu]
  · intro hd hok
    subst hok
    exact ⟨by simp [getOrCreateGuestUser, hd], rfl, rfl⟩

/-- C9 witness: on the empty store the lookup finds nothing and the
resolver inserts the sentinel "guest" record with the fresh id 0 and
returns it. -/
theorem C9_resolver_steps_witness :
    getOrCreateGuestUser emptyStore true =
      (some 0, Store.mk [newGuestUser 0] [] 1 0) ∧
    (newGuestUser 0).email = guestEmail ∧ (newGuestUser 0).role = "guest" := by
  have h := (C9_resolver_steps emptyStore true).2 (by decide) rfl
  simpa using h
